import Mathlib

/-!
Verification of the adaptive scoring and configuration subsystem of the
ocr-classifier service.  The Python sources are shallowly embedded: Python
floats become exact rationals, Python dicts become association lists or
fixed structures, the mutable singleton state becomes explicit state
passing, and fallible operations return Option or Except.
-/

namespace OCRC

/-! ## Data model

A weight leaf in config.WEIGHTS is either numeric (Python int or float,
which the learning code mutates) or some other value (skipped by the
isinstance checks in the learning code). -/

inductive ConfigValue where
  | num (q : ℚ)
  | other
  deriving DecidableEq, Repr

/-- One weight group, class-key to parameter-name to value: a Python dict
modelled as an association list preserving insertion order. -/
abbrev WeightGroup := List (String × ConfigValue)

/-- config.WEIGHTS: the four per-class weight groups, keyed AR, TP, DOC,
PHOTO in config.py. -/
structure Weights where
  AR : WeightGroup
  TP : WeightGroup
  DOC : WeightGroup
  PHOTO : WeightGroup
  deriving DecidableEq, Repr

/-- Lookup of a parameter in a weight group. -/
def lookupWeight (k : String) : WeightGroup → Option ConfigValue
  | [] => none
  | (k', v) :: rest => if k' = k then some v else lookupWeight k rest

/-- The four score keys of config.WEIGHTS and of the scores dict. -/
inductive ScoreKey where
  | AR
  | TP
  | DOC
  | PHOTO
  deriving DecidableEq, Repr

def Weights.get (w : Weights) : ScoreKey → WeightGroup
  | .AR => w.AR
  | .TP => w.TP
  | .DOC => w.DOC
  | .PHOTO => w.PHOTO

def Weights.set (w : Weights) : ScoreKey → WeightGroup → Weights
  | .AR, g => { w with AR := g }
  | .TP, g => { w with TP := g }
  | .DOC, g => { w with DOC := g }
  | .PHOTO, g => { w with PHOTO := g }

/-- config.THRESHOLDS: the per-class decision boundaries, keyed by the four
class names in config.py. -/
structure Thresholds where
  arbeitsbericht : ℚ
  typeplate : ℚ
  document : ℚ
  photo : ℚ
  deriving DecidableEq, Repr

/-- The four known class names, as a closed enumeration. -/
inductive ClassName where
  | arbeitsbericht
  | typeplate
  | document
  | photo
  deriving DecidableEq, Repr

def className : ClassName → String
  | .arbeitsbericht => "arbeitsbericht"
  | .typeplate => "typeplate"
  | .document => "document"
  | .photo => "photo"

/-- The score-key string attached to each class, as used by the
class-to-score-key dicts in learning/scoring_engine.py. -/
def classKeyName : ClassName → String
  | .arbeitsbericht => "AR"
  | .typeplate => "TP"
  | .document => "DOC"
  | .photo => "PHOTO"

def Thresholds.get (th : Thresholds) : ClassName → ℚ
  | .arbeitsbericht => th.arbeitsbericht
  | .typeplate => th.typeplate
  | .document => th.document
  | .photo => th.photo

/-- Hardcoded default THRESHOLDS from config.py. -/
def hardcodedThresholds : Thresholds :=
  { arbeitsbericht := 5, typeplate := 3, document := 3/2, photo := 0 }

/-- Hardcoded default WEIGHTS from config.py (all leaves numeric). -/
def hardcodedWeights : Weights :=
  { AR := [("text_length_divisor", .num 500), ("text_length_factor", .num (3/2)),
           ("keyword_multiplier", .num 2), ("clip_bonus", .num 1),
           ("min_text_length", .num 500)],
    TP := [("clip_factor", .num 4), ("keyword_multiplier", .num (3/2)),
           ("digit_ratio_factor", .num 10), ("line_density_factor", .num 80),
           ("color_uniformity_factor", .num 5), ("rect_score_factor", .num 3)],
    DOC := [("text_length_divisor", .num 300), ("clip_factor", .num 2)],
    PHOTO := [("low_text_threshold", .num 20), ("low_text_bonus", .num 2),
              ("clip_factor", .num 2)] }

/-! ## Scoring engine decision rule (classifier_service.py, classify_image,
section 7 CLASSIFICATION DECISION) -/

/-- Outcome of the classification decision: predicted class and confidence. -/
structure Decision where
  predicted : ClassName
  confidence : ℚ
  deriving DecidableEq, Repr

/-- The priority-ordered decision rule of classify_image, lines 219-233 of
classifier_service.py, over the four computed per-class scores. -/
def classifyDecision (th : Thresholds) (AR TP DOC PHOTO : ℚ) : Decision :=
  if AR ≥ th.arbeitsbericht then
    { predicted := .arbeitsbericht, confidence := min (AR / 10) (95/100) }
  else if TP > max DOC PHOTO ∧ TP ≥ th.typeplate then
    { predicted := .typeplate, confidence := min (TP / 15) (95/100) }
  else if DOC > PHOTO ∧ DOC ≥ th.document then
    { predicted := .document, confidence := min (DOC / 8) (95/100) }
  else
    { predicted := .photo, confidence := 1/2 }

/-! ## Adaptive learning engine (learning/scoring_engine.py) -/

/-- The class-to-score-key dict duplicated in _reinforce_weights,
_penalize_weights and _recalculate_thresholds; none for unknown class
names (the guard that logs a warning and returns). -/
def class_to_key (class_name : String) : Option ScoreKey :=
  if class_name = "arbeitsbericht" then some .AR
  else if class_name = "typeplate" then some .TP
  else if class_name = "document" then some .DOC
  else if class_name = "photo" then some .PHOTO
  else none

/-- Body of the reinforcement loop: every numeric leaf of the group is
multiplied by (1 + factor); non-numeric leaves fail the isinstance check
and are skipped. -/
def reinforceGroup (factor : ℚ) (g : WeightGroup) : WeightGroup :=
  g.map fun kv =>
    match kv with
    | (k, .num q) => (k, .num (q * (1 + factor)))
    | (k, .other) => (k, .other)

/-- Body of the penalization loop: every numeric leaf becomes
max(old * (1 + factor), MIN_WEIGHT) with MIN_WEIGHT = 0.1. -/
def penalizeGroup (factor : ℚ) (g : WeightGroup) : WeightGroup :=
  g.map fun kv =>
    match kv with
    | (k, .num q) => (k, .num (max (q * (1 + factor)) (1/10)))
    | (k, .other) => (k, .other)

/-- _reinforce_weights: returns unchanged weights for an unknown class
name, otherwise multiplies every numeric leaf of that class group. -/
def reinforce_weights (w : Weights) (class_name : String) (factor : ℚ) : Weights :=
  match class_to_key class_name with
  | none => w
  | some k => w.set k (reinforceGroup factor (w.get k))

/-- _penalize_weights: returns unchanged weights for an unknown class
name, otherwise applies the floored reduction to every numeric leaf. -/
def penalize_weights (w : Weights) (class_name : String) (factor : ℚ) : Weights :=
  match class_to_key class_name with
  | none => w
  | some k => w.set k (penalizeGroup factor (w.get k))

/-- One entry of feedback_history (timestamp omitted: it is opaque to every
property considered here).  The scores dict of the original prediction is
an association list, looked up by score key. -/
structure FeedbackEntry where
  predicted : String
  correct : String
  scores : List (String × ℚ)
  confidence : ℚ
  deriving DecidableEq, Repr

/-- The LEARNING_CONFIG parameters read by the learning code. -/
structure LearningParams where
  reinforce_factor : ℚ
  penalize_factor : ℚ
  reward_factor : ℚ
  threshold_recalc_interval : ℕ
  min_feedback_for_update : ℕ
  weight_update_interval : ℕ
  deriving Repr

/-- The default LEARNING_CONFIG of config.py. -/
def defaultLearningParams : LearningParams :=
  { reinforce_factor := 1/20, penalize_factor := -(1/10), reward_factor := 1/10,
    threshold_recalc_interval := 50, min_feedback_for_update := 10,
    weight_update_interval := 50 }

/-- Mutable state touched by AdaptiveScoringEngine: its own fields
(feedback_history, feedback_count, weights_version) plus the config
singleton dictionaries it mutates in place (config.WEIGHTS and
config.THRESHOLDS). -/
structure EngineState where
  weights : Weights
  thresholds : Thresholds
  feedback_history : List FeedbackEntry
  feedback_count : ℕ
  weights_version : ℕ
  deriving DecidableEq, Repr

/-- Lookup in a scores dict. -/
def lookupScore (k : String) : List (String × ℚ) → Option ℚ
  | [] => none
  | (k', v) :: rest => if k' = k then some v else lookupScore k rest

/-- Scores of entries whose ground-truth (corrected) class is the given
class, in history order: the per-class list built by the grouping loop of
_recalculate_thresholds (entries with an unknown corrected class or a
missing score key are skipped). -/
def classScores (history : List FeedbackEntry) (c : ClassName) : List ℚ :=
  history.filterMap fun e =>
    if e.correct = className c then lookupScore (classKeyName c) e.scores else none

/-- np.percentile with the default linear interpolation, at q = 25: sort
ascending (the sorted list of rationals is unique, so any sort gives the
numpy order), take the virtual index (n - 1) * 25 / 100 and interpolate
between its two neighbouring order statistics. -/
def percentile25 (l : List ℚ) : ℚ :=
  let s := List.insertionSort (· ≤ ·) l
  let n := l.length
  let i := (n - 1) * 25 / 100
  let frac : ℚ := (((n - 1) * 25 : ℕ) : ℚ) / 100 - (i : ℚ)
  match s.get? i, s.get? (i + 1) with
  | some a, some b => a + frac * (b - a)
  | some a, none => a
  | none, _ => 0

/-- Round half to even at integer precision, the rounding rule of Python
round applied to an exactly-represented value. -/
def roundHalfEven (q : ℚ) : ℤ :=
  let n := ⌊q⌋
  let r := q - n
  if r < 1/2 then n
  else if r > 1/2 then n + 1
  else if n % 2 = 0 then n else n + 1

/-- Python round(x, 2) on the exact value. -/
def round2 (q : ℚ) : ℚ := (roundHalfEven (q * 100) : ℚ) / 100

/-- Python round(x, 3) on the exact value. -/
def round3 (q : ℚ) : ℚ := (roundHalfEven (q * 1000) : ℚ) / 1000

/-- The per-class update step of _recalculate_thresholds: with at least 5
samples, the 25th percentile becomes the candidate; it is applied (rounded
to 2 decimals) only when abs(new - old) / max(old, 0.1) > 0.1. -/
def recalcClass (history : List FeedbackEntry) (c : ClassName) (old : ℚ) : ℚ :=
  let scores := classScores history c
  if 5 ≤ scores.length then
    let newThreshold := percentile25 scores
    if |newThreshold - old| / max old (1/10) > 1/10 then round2 newThreshold
    else old
  else old

/-- _recalculate_thresholds: returns unchanged thresholds when the whole
history is shorter than min_feedback_for_update, otherwise updates each of
the four classes independently via recalcClass. -/
def recalculate_thresholds (p : LearningParams) (history : List FeedbackEntry)
    (th : Thresholds) : Thresholds :=
  if history.length < p.min_feedback_for_update then th
  else
    { arbeitsbericht := recalcClass history .arbeitsbericht th.arbeitsbericht,
      typeplate := recalcClass history .typeplate th.typeplate,
      document := recalcClass history .document th.document,
      photo := recalcClass history .photo th.photo }

/-- adjust_weights_from_feedback: append the feedback entry, increment
feedback_count, reinforce on a correct prediction or penalize-then-reward
on an incorrect one, and on every multiple of threshold_recalc_interval
recalculate thresholds and increment weights_version. -/
def adjust_weights_from_feedback (p : LearningParams) (s : EngineState)
    (predicted correct : String) (scores : List (String × ℚ))
    (confidence : ℚ) : EngineState :=
  let s1 : EngineState :=
    { s with
      feedback_history :=
        s.feedback_history ++ [⟨predicted, correct, scores, confidence⟩],
      feedback_count := s.feedback_count + 1 }
  let s2 : EngineState :=
    if predicted = correct then
      { s1 with weights := reinforce_weights s1.weights predicted p.reinforce_factor }
    else
      { s1 with weights :=
          (reinforce_weights (penalize_weights s1.weights predicted p.penalize_factor)
            correct p.reward_factor) }
  if s2.feedback_count % p.threshold_recalc_interval = 0 then
    { s2 with
      thresholds := recalculate_thresholds p s2.feedback_history s2.thresholds,
      weights_version := s2.weights_version + 1 }
  else s2

/-- Accuracy as reported by get_statistics: 0.0 on an empty history,
otherwise the correct-prediction count over the total, rounded to three
decimals. -/
def statisticsAccuracy (s : EngineState) : ℚ :=
  if s.feedback_history.isEmpty then 0
  else
    round3 ((s.feedback_history.filter fun e => e.predicted = e.correct).length /
      (s.feedback_history.length : ℚ))

/-! ## Feedback coordinator (learning/feedback_processor.py) -/

/-- The original classification record fetched from the external store,
as read by process_feedback: predicted class, per-class scores and
confidence of the prediction. -/
structure OriginalRecord where
  predictedClass : String
  scores : List (String × ℚ)
  confidence : ℚ
  deriving DecidableEq, Repr

/-- The responses of the external CI4 record store for one
process_feedback run.  Every client call catches its own errors and
returns None on failure, so each outcome is an Option. -/
structure CI4World where
  enabled : Bool
  classification : Option OriginalRecord
  storeAck : Bool
  updateAck : Bool
  deriving DecidableEq, Repr

/-- Result value of process_feedback, keeping exactly the fields the code
returns on each path. -/
inductive ProcessResult where
  | warningDisabled
  | errorNotFound
  | success (weights_updated : Bool) (feedback_count : ℕ)
      (current_accuracy : ℚ) (weights_version : ℕ)
  deriving DecidableEq, Repr

/-- process_feedback of FeedbackProcessor: resolve the original
classification (fatal on failure), store the raw feedback (best effort,
result only logged), run adjust_weights_from_feedback, push weights to
CI4 only when feedback_count is a multiple of weight_update_interval, and
assemble the response from get_statistics.  The third component records
whether the external weight push was attempted. -/
def process_feedback (p : LearningParams) (world : CI4World) (s : EngineState)
    (corrected_class : String) : ProcessResult × EngineState × Bool :=
  if world.enabled = false then (.warningDisabled, s, false)
  else
    match world.classification with
    | none => (.errorNotFound, s, false)
    | some orig =>
      let s' := adjust_weights_from_feedback p s orig.predictedClass
        corrected_class orig.scores orig.confidence
      let fc := s'.feedback_count
      if fc % p.weight_update_interval = 0 then
        (.success world.updateAck fc (statisticsAccuracy s') s'.weights_version, s', true)
      else
        (.success false fc (statisticsAccuracy s') s'.weights_version, s', false)

/-! ## Configuration store (config_manager.py)

Python dicts holding arbitrary JSON-like configuration data are embedded
as a recursive value type; dict fields are association lists preserving
insertion order. -/

inductive JVal where
  | null
  | bool (b : Bool)
  | num (q : ℚ)
  | str (s : String)
  | arr (elems : List JVal)
  | obj (fields : List (String × JVal))

abbrev JObj := List (String × JVal)

/-- Dict lookup. -/
def lookupJ (k : String) : JObj → Option JVal
  | [] => none
  | (k', v) :: rest => if k' = k then some v else lookupJ k rest

/-- Dict assignment: replace in place when the key exists, append
otherwise (Python dict insertion-order semantics). -/
def setJ (k : String) (v : JVal) : JObj → JObj
  | [] => [(k, v)]
  | (k', v') :: rest =>
      if k' = k then (k', v) :: rest else (k', v') :: setJ k v rest

mutual

/-- Value-level step of _deep_merge: when the existing value and the
update value are both dicts, merge them recursively; otherwise the update
value replaces the existing one wholesale (including arrays). -/
def mergeValue (old new : JVal) : JVal :=
  match old, new with
  | JVal.obj ro, JVal.obj uo => JVal.obj (deep_merge ro uo)
  | _, _ => new
termination_by sizeOf new
decreasing_by
  simp only [JVal.obj.sizeOf_spec]
  omega

/-- _deep_merge: iterate over the update entries; a key already present
is combined with mergeValue, a new key is appended. -/
def deep_merge (base : JObj) (updates : JObj) : JObj :=
  match updates with
  | [] => base
  | (k, v) :: rest =>
      let step :=
        match lookupJ k base with
        | some old => setJ k (mergeValue old v) base
        | none => setJ k v base
      deep_merge step rest
termination_by sizeOf updates
decreasing_by
  · simp only [List.cons.sizeOf_spec, Prod.mk.sizeOf_spec]
    omega
  · simp only [List.cons.sizeOf_spec]
    omega

end

/-- Configuration-store state: the persisted file layer and the in-memory
runtime-overrides layer.  The hardcoded-defaults layer is passed as a
parameter (it is read from the config singleton); the environment layer is
already folded into the defaults in config.py. -/
structure StoreState where
  file : Option JObj
  runtime : JObj

/-- get_config (lock-free functional core): defaults, then the file layer
if present, then the runtime overrides, merged in order. -/
def get_config_merged (defaults : JObj) (st : StoreState) : JObj :=
  deep_merge (deep_merge defaults (st.file.getD [])) st.runtime

/-- The on-disk condition of one configuration file as _load_from_file
observes it: absent, unreadable as JSON, or parsed JSON data (whose schema
validity is checked separately). -/
inductive FileContent where
  | absent
  | malformed
  | parsed (j : JObj)

/-- _recover_from_corruption: try the backup file; return its data when it
parses and passes schema validation, otherwise none (hardcoded defaults
take over in get_config). -/
def recover_from_corruption (valid : JObj → Bool) (backup : FileContent) :
    Option JObj :=
  match backup with
  | .parsed j => if valid j then some j else none
  | _ => none

/-- _load_from_file: none when the primary file is missing; its data when
it parses and validates; otherwise corruption recovery via the backup. -/
def load_from_file (valid : JObj → Bool) (primary backup : FileContent) :
    Option JObj :=
  match primary with
  | .absent => none
  | .malformed => recover_from_corruption valid backup
  | .parsed j => if valid j then some j else recover_from_corruption valid backup

/-! ## Lock-aware execution (config_manager.py under asyncio.Lock)

asyncio.Lock is not reentrant: a task that awaits the lock it already
holds blocks forever.  An execution is modelled as an Option: none means
the task never completes. -/

inductive LockState where
  | free
  | held
  deriving DecidableEq, Repr

/-- Awaiting the lock from the single running task: succeeds only when the
lock is free; awaiting a lock the task itself holds blocks forever. -/
def acquireLock : LockState → Option LockState
  | .free => some .held
  | .held => none

/-- get_config as executed: acquire the lock, merge the layers, release. -/
def get_config_exec (l : LockState) (defaults : JObj) (st : StoreState) :
    Option JObj :=
  match acquireLock l with
  | none => none
  | some _ => some (get_config_merged defaults st)

/-- update_config as executed: acquire the lock (line 79), then await
self.get_config() while still holding it (line 81), then merge, validate,
apply and finally await self.get_config() again (line 107). -/
def update_config_exec (l : LockState) (valid : JObj → Bool) (defaults : JObj)
    (st : StoreState) (updates : JObj) (persist : Bool) :
    Option (Except String (StoreState × JObj)) :=
  match acquireLock l with
  | none => none
  | some l' =>
    match get_config_exec l' defaults st with
    | none => none
    | some current =>
      let updated := deep_merge current updates
      if valid updated then
        let st' :=
          if persist then { st with file := some updated }
          else { st with runtime := deep_merge st.runtime updates }
        match get_config_exec l' defaults st' with
        | none => none
        | some merged => some (.ok (st', merged))
      else some (.error "Invalid configuration")

/-- reload as executed: acquire the lock (line 119), optionally clear the
runtime overrides, re-read the file, then await self.get_config() while
still holding the lock (line 129). -/
def reload_exec (l : LockState) (valid : JObj → Bool) (defaults : JObj)
    (st : StoreState) (primary backup : FileContent) (clear_runtime : Bool) :
    Option (StoreState × JObj) :=
  match acquireLock l with
  | none => none
  | some l' =>
    let st1 := if clear_runtime then { st with runtime := [] } else st
    let _fileData := load_from_file valid primary backup
    match get_config_exec l' defaults st1 with
    | none => none
    | some merged => some (st1, merged)

/-! ## reset_to_defaults (config_manager.py) and the config singleton

_get_defaults deep-copies ClassificationConfig.WEIGHTS and
ClassificationConfig.THRESHOLDS: the current class attributes of the
config singleton, which the learning engine mutates in place.  The model
is restricted to these two sections; the other sections of the snapshot
are never touched by any operation considered here. -/

/-- The snapshot built by _get_defaults (WEIGHTS and THRESHOLDS parts). -/
structure DefaultsSnapshot where
  WEIGHTS : Weights
  THRESHOLDS : Thresholds
  deriving DecidableEq, Repr

/-- Manager state for reset_to_defaults: the mutable config singleton
(the same dictionaries the learning engine mutates), the runtime-overrides
layer and the persisted file. -/
structure ResetManagerState where
  singletonWeights : Weights
  singletonThresholds : Thresholds
  runtime : JObj
  file : Option DefaultsSnapshot

/-- _get_defaults: reads the singleton attributes as they are now. -/
def get_defaults (m : ResetManagerState) : DefaultsSnapshot :=
  ⟨m.singletonWeights, m.singletonThresholds⟩

/-- reset_to_defaults: build the snapshot via _get_defaults, clear the
runtime overrides, persist the snapshot with _atomic_write, re-apply it to
the singleton (writing back the values just read), and return it. -/
def reset_to_defaults (m : ResetManagerState) : ResetManagerState × DefaultsSnapshot :=
  let defaults := get_defaults m
  ({ m with runtime := [], file := some defaults }, defaults)

/-! ## Concrete fixtures used by witnesses and counterexamples -/

/-- Engine state at service startup: hardcoded weights and thresholds,
empty history, feedback_count 0, weights_version 1. -/
def startupEngineState : EngineState :=
  { weights := hardcodedWeights, thresholds := hardcodedThresholds,
    feedback_history := [], feedback_count := 0, weights_version := 1 }

/-- Learning parameters with sync and recalculation boundaries at every
event (schema minimum values), used to exercise boundary branches. -/
def fastParams : LearningParams :=
  { defaultLearningParams with
      threshold_recalc_interval := 1
      min_feedback_for_update := 1
      weight_update_interval := 1 }

/-- Recalculation interval of 15 so that the 15th feedback event triggers
a recalibration pass. -/
def paramsC2 : LearningParams :=
  { defaultLearningParams with threshold_recalc_interval := 15 }

/-- Engine state with 14 prior feedback events: ten ground-truth document
events with DOC score 1.8 and four ground-truth typeplate events with TP
score 1.876, document threshold 2.0. -/
def stateC2 : EngineState :=
  { weights := hardcodedWeights,
    thresholds := { arbeitsbericht := 5, typeplate := 3, document := 2, photo := 0 },
    feedback_history :=
      [⟨"document", "document", [("DOC", 9/5)], 1/2⟩,
       ⟨"document", "document", [("DOC", 9/5)], 1/2⟩,
       ⟨"document", "document", [("DOC", 9/5)], 1/2⟩,
       ⟨"document", "document", [("DOC", 9/5)], 1/2⟩,
       ⟨"document", "document", [("DOC", 9/5)], 1/2⟩,
       ⟨"document", "document", [("DOC", 9/5)], 1/2⟩,
       ⟨"document", "document", [("DOC", 9/5)], 1/2⟩,
       ⟨"document", "document", [("DOC", 9/5)], 1/2⟩,
       ⟨"document", "document", [("DOC", 9/5)], 1/2⟩,
       ⟨"document", "document", [("DOC", 9/5)], 1/2⟩,
       ⟨"typeplate", "typeplate", [("TP", 469/250)], 1/2⟩,
       ⟨"typeplate", "typeplate", [("TP", 469/250)], 1/2⟩,
       ⟨"typeplate", "typeplate", [("TP", 469/250)], 1/2⟩,
       ⟨"typeplate", "typeplate", [("TP", 469/250)], 1/2⟩],
    feedback_count := 14, weights_version := 1 }

/-- The 15th feedback event sent to stateC2: a correct typeplate
prediction with TP score 1.876. -/
def stepC2 : EngineState :=
  adjust_weights_from_feedback paramsC2 stateC2 "typeplate" "typeplate"
    [("TP", 469/250)] (1/2)

/-- The history after the stepC2 event. -/
def historyC2 : List FeedbackEntry :=
  stateC2.feedback_history ++ [⟨"typeplate", "typeplate", [("TP", 469/250)], 1/2⟩]

/-- Engine state after one correct-photo feedback event starting from the
startup state: the learning engine reinforces the PHOTO group of
config.WEIGHTS in place. -/
def engineAfterPhotoReinforce : EngineState :=
  adjust_weights_from_feedback defaultLearningParams startupEngineState
    "photo" "photo" [("PHOTO", 3)] (1/2)

/-- Manager state as seen after that learning step: the config singleton
holds the mutated weights; no config file was ever written. -/
def managerAfterPhotoReinforce : ResetManagerState :=
  { singletonWeights := engineAfterPhotoReinforce.weights,
    singletonThresholds := engineAfterPhotoReinforce.thresholds,
    runtime := [], file := none }

/-- A CI4 world where the classification resolves and both external
writes succeed. -/
def worldOk : CI4World :=
  { enabled := true, classification := some ⟨"photo", [("PHOTO", 2)], 1/2⟩,
    storeAck := true, updateAck := true }

/-- Same world with the weight push failing. -/
def worldPushFails : CI4World :=
  { worldOk with updateAck := false }

/-! ## Helper lemmas -/

lemma deep_merge_nil (base : JObj) : deep_merge base [] = base := by
  simp [deep_merge]

lemma Weights.get_set_self (w : Weights) (k : ScoreKey) (g : WeightGroup) :
    (w.set k g).get k = g := by
  cases k <;> rfl

lemma Weights.get_set_ne (w : Weights) (k k' : ScoreKey) (g : WeightGroup)
    (h : k' ≠ k) : (w.set k g).get k' = w.get k' := by
  cases k <;> cases k' <;> simp_all [Weights.set, Weights.get]

lemma adjust_weights_eq (p : LearningParams) (s : EngineState)
    (predicted correct : String) (scores : List (String × ℚ)) (confidence : ℚ) :
    (adjust_weights_from_feedback p s predicted correct scores confidence).weights =
      if predicted = correct then
        reinforce_weights s.weights predicted p.reinforce_factor
      else
        reinforce_weights (penalize_weights s.weights predicted p.penalize_factor)
          correct p.reward_factor := by
  simp only [adjust_weights_from_feedback]
  split <;> split <;> rfl

lemma adjust_history_eq (p : LearningParams) (s : EngineState)
    (predicted correct : String) (scores : List (String × ℚ)) (confidence : ℚ) :
    (adjust_weights_from_feedback p s predicted correct scores confidence).feedback_history =
      s.feedback_history ++ [⟨predicted, correct, scores, confidence⟩] := by
  simp only [adjust_weights_from_feedback]
  split <;> split <;> rfl

lemma adjust_count_eq (p : LearningParams) (s : EngineState)
    (predicted correct : String) (scores : List (String × ℚ)) (confidence : ℚ) :
    (adjust_weights_from_feedback p s predicted correct scores confidence).feedback_count =
      s.feedback_count + 1 := by
  simp only [adjust_weights_from_feedback]
  split <;> split <;> rfl

lemma adjust_thresholds_eq (p : LearningParams) (s : EngineState)
    (predicted correct : String) (scores : List (String × ℚ)) (confidence : ℚ) :
    (adjust_weights_from_feedback p s predicted correct scores confidence).thresholds =
      (if (s.feedback_count + 1) % p.threshold_recalc_interval = 0 then
        recalculate_thresholds p
          (s.feedback_history ++ [⟨predicted, correct, scores, confidence⟩])
          s.thresholds
      else s.thresholds) := by
  simp only [adjust_weights_from_feedback]
  split <;> split <;> rfl

lemma adjust_version_eq (p : LearningParams) (s : EngineState)
    (predicted correct : String) (scores : List (String × ℚ)) (confidence : ℚ) :
    (adjust_weights_from_feedback p s predicted correct scores confidence).weights_version =
      (if (s.feedback_count + 1) % p.threshold_recalc_interval = 0 then
        s.weights_version + 1
      else s.weights_version) := by
  simp only [adjust_weights_from_feedback]
  split <;> split <;> rfl

/-! ## Claim theorems -/

/-- Claim C1: The classification decision of classify_image is priority
ordered: arbeitsbericht wins exactly when its score meets its threshold,
regardless of the other scores; otherwise typeplate wins exactly when its
score strictly exceeds both the DOC and PHOTO scores and meets its own
threshold; otherwise document wins exactly when its score strictly exceeds
PHOTO and meets its threshold; otherwise photo wins unconditionally.  The
confidence of each winning branch is its fixed linear scale capped below
one (AR/10, TP/15, DOC/8, each capped at 0.95), and the fallback branch
returns the constant 0.5. -/
theorem C1_classification_priority_order (th : Thresholds) (AR TP DOC PHOTO : ℚ) :
    ((classifyDecision th AR TP DOC PHOTO).predicted = .arbeitsbericht ↔
       AR ≥ th.arbeitsbericht) ∧
    ((classifyDecision th AR TP DOC PHOTO).predicted = .typeplate ↔
       (¬ AR ≥ th.arbeitsbericht ∧ TP > DOC ∧ TP > PHOTO ∧ TP ≥ th.typeplate)) ∧
    ((classifyDecision th AR TP DOC PHOTO).predicted = .document ↔
       (¬ AR ≥ th.arbeitsbericht ∧
        ¬ (TP > DOC ∧ TP > PHOTO ∧ TP ≥ th.typeplate) ∧
        DOC > PHOTO ∧ DOC ≥ th.document)) ∧
    ((classifyDecision th AR TP DOC PHOTO).predicted = .photo ↔
       (¬ AR ≥ th.arbeitsbericht ∧
        ¬ (TP > DOC ∧ TP > PHOTO ∧ TP ≥ th.typeplate) ∧
        ¬ (DOC > PHOTO ∧ DOC ≥ th.document))) ∧
    ((classifyDecision th AR TP DOC PHOTO).predicted = .arbeitsbericht →
       (classifyDecision th AR TP DOC PHOTO).confidence = min (AR / 10) (95/100)) ∧
    ((classifyDecision th AR TP DOC PHOTO).predicted = .typeplate →
       (classifyDecision th AR TP DOC PHOTO).confidence = min (TP / 15) (95/100)) ∧
    ((classifyDecision th AR TP DOC PHOTO).predicted = .document →
       (classifyDecision th AR TP DOC PHOTO).confidence = min (DOC / 8) (95/100)) ∧
    ((classifyDecision th AR TP DOC PHOTO).predicted = .photo →
       (classifyDecision th AR TP DOC PHOTO).confidence = 1/2) := by
  have hmax : TP > max DOC PHOTO ↔ TP > DOC ∧ TP > PHOTO := max_lt_iff
  simp only [classifyDecision]
  split_ifs with h1 h2 h3 <;> simp_all

/-- Witness for C1, the scenario of the testable-properties section:
scores 6, 4, 2, 0 with thresholds 5, 3, 1.5 give arbeitsbericht even
though the other scores clear their own thresholds. -/
theorem C1_witness :
    (classifyDecision ⟨5, 3, 3/2, 0⟩ 6 4 2 0).predicted = .arbeitsbericht :=
  (C1_classification_priority_order ⟨5, 3, 3/2, 0⟩ 6 4 2 0).1.mpr (by norm_num)

/-- Claim C4, code bug: update_config and reload acquire the single exclusive
asyncio.Lock of the store and then await self.get_config, which awaits the
same non-reentrant lock: the task blocks forever.  Invoked while no other
task holds the lock, neither operation ever terminates, for every store
state, update, validator and persistence flag — they never return a merged
snapshot. -/
theorem C4_update_config_and_reload_deadlock (valid : JObj → Bool)
    (defaults : JObj) (st : StoreState) (updates : JObj) (persist : Bool)
    (primary backup : FileContent) (clear_runtime : Bool) :
    update_config_exec .free valid defaults st updates persist = none ∧
    reload_exec .free valid defaults st primary backup clear_runtime = none := by
  constructor <;> rfl

/-- Claim C5: After any penalize step applied to a known class, every numeric
weight leaf of that class group is at least the floor MIN_WEIGHT = 0.1,
whatever the prior values and the factor: each leaf is explicitly clamped
with max(old * (1 + factor), 0.1). -/
theorem C5_penalize_floor (w : Weights) (class_name : String) (factor : ℚ)
    (k : ScoreKey) (hk : class_to_key class_name = some k) :
    ∀ name q, (name, ConfigValue.num q) ∈ (penalize_weights w class_name factor).get k →
      1/10 ≤ q := by
  intro name q hq
  rw [penalize_weights, hk] at hq
  rw [Weights.get_set_self] at hq
  simp only [penalizeGroup, List.mem_map] at hq
  obtain ⟨⟨name0, v0⟩, _, heq⟩ := hq
  cases v0 with
  | num q0 =>
    simp only [Prod.mk.injEq, ConfigValue.num.injEq] at heq
    rw [← heq.2]
    exact le_max_right _ _
  | other => simp at heq

/-- Witness for C5: penalizing the photo group of the hardcoded weights
with factor -0.5 leaves the low_text_bonus leaf at 1, which is at least
the floor. -/
theorem C5_witness : (1:ℚ)/10 ≤ 1 :=
  C5_penalize_floor hardcodedWeights "photo" (-(1/2)) .PHOTO (by decide)
    "low_text_bonus" 1 (by
      simp [penalize_weights, class_to_key, hardcodedWeights, penalizeGroup,
        Weights.set, Weights.get]
      norm_num)

/-- Claim C6: On a feedback event whose predicted class equals the corrected
class X (a known class), adjust_weights_from_feedback multiplies every
numeric weight leaf of the X group by (1 + reinforce_factor) — keeping the
group length — so with a nonnegative reinforce_factor no (nonnegative)
leaf decreases; and the weight groups of all other classes are unchanged. -/
theorem C6_reinforce_on_correct (p : LearningParams) (s : EngineState)
    (cn : String) (k : ScoreKey) (scores : List (String × ℚ)) (conf : ℚ)
    (hk : class_to_key cn = some k) :
    (∀ name q, (name, ConfigValue.num q) ∈ s.weights.get k →
       (name, ConfigValue.num (q * (1 + p.reinforce_factor))) ∈
         (adjust_weights_from_feedback p s cn cn scores conf).weights.get k ∧
       (0 ≤ p.reinforce_factor → 0 ≤ q → q ≤ q * (1 + p.reinforce_factor))) ∧
    ((adjust_weights_from_feedback p s cn cn scores conf).weights.get k).length =
      (s.weights.get k).length ∧
    (∀ k', k' ≠ k →
       (adjust_weights_from_feedback p s cn cn scores conf).weights.get k' =
         s.weights.get k') := by
  have hw : (adjust_weights_from_feedback p s cn cn scores conf).weights =
      reinforce_weights s.weights cn p.reinforce_factor := by
    rw [adjust_weights_eq]
    simp
  rw [hw, reinforce_weights, hk]
  refine ⟨?_, ?_, ?_⟩
  · intro name q hq
    constructor
    · rw [Weights.get_set_self]
      simp only [reinforceGroup, List.mem_map]
      exact ⟨(name, .num q), hq, rfl⟩
    · intro hf hq0
      nlinarith
  · rw [Weights.get_set_self]
    simp [reinforceGroup]
  · intro k' hk'
    exact Weights.get_set_ne _ _ _ _ hk'

/-- Witness for C6: a correct photo prediction from the startup state
multiplies the low_text_bonus leaf of the PHOTO group by 1.05, leaving it
in the updated group as 2 * (1 + 0.05). -/
theorem C6_witness :
    ("low_text_bonus",
        ConfigValue.num (2 * (1 + defaultLearningParams.reinforce_factor))) ∈
      (adjust_weights_from_feedback defaultLearningParams startupEngineState
          "photo" "photo" [] (1/2)).weights.get .PHOTO :=
  ((C6_reinforce_on_correct defaultLearningParams startupEngineState "photo"
      .PHOTO [] (1/2) (by decide)).1 "low_text_bonus" 2 (by
        simp [startupEngineState, hardcodedWeights, Weights.get])).1

/-- Claim C10 counterexample: The claim quantifies over every feedback event
whose corrected class is unknown: at the startup state, the event
predicted photo / corrected unbekannt has an unknown corrected class, yet
the weights change (the penalize branch still fires on the known predicted
class, scaling the PHOTO group by 0.9). -/
theorem C10_counterexample :
    class_to_key "unbekannt" = none ∧
    (adjust_weights_from_feedback defaultLearningParams startupEngineState
        "photo" "unbekannt" [] (1/2)).weights ≠ startupEngineState.weights ∧
    ("low_text_bonus", ConfigValue.num (9/5)) ∈
      (adjust_weights_from_feedback defaultLearningParams startupEngineState
          "photo" "unbekannt" [] (1/2)).weights.get .PHOTO := by
  refine ⟨by decide, ?_, ?_⟩
  · intro h
    have h2 := congrArg (fun w => (Weights.get w .PHOTO).lookup "low_text_bonus") h
    simp [adjust_weights_eq, reinforce_weights, penalize_weights, class_to_key,
      startupEngineState, hardcodedWeights, Weights.set, Weights.get,
      penalizeGroup, List.lookup, defaultLearningParams, max_def] at h2
    norm_num at h2
  · simp [adjust_weights_eq, reinforce_weights, penalize_weights, class_to_key,
      startupEngineState, hardcodedWeights, Weights.set, Weights.get,
      penalizeGroup, defaultLearningParams, max_def]
    norm_num

/-- Claim C10 amended: For every feedback event in which no known class is
updated — the corrected class is not one of the four known class names
and, when the prediction differs from the correction, the predicted class
is also unknown — adjust_weights_from_feedback still appends the
FeedbackEvent, increments feedback_count by exactly 1, and leaves every
weight leaf of every class group unchanged (the update helpers return
without touching the weights; no error is raised — the embedding is a
total function). -/
theorem C10_amended_unknown_class_is_weight_noop (p : LearningParams)
    (s : EngineState) (predicted correct : String)
    (scores : List (String × ℚ)) (conf : ℚ)
    (hcorr : class_to_key correct = none)
    (hpred : predicted = correct ∨ class_to_key predicted = none) :
    (adjust_weights_from_feedback p s predicted correct scores conf).weights =
      s.weights ∧
    (adjust_weights_from_feedback p s predicted correct scores conf).feedback_history =
      s.feedback_history ++ [FeedbackEntry.mk predicted correct scores conf] ∧
    (adjust_weights_from_feedback p s predicted correct scores conf).feedback_count =
      s.feedback_count + 1 := by
  refine ⟨?_, adjust_history_eq .., adjust_count_eq ..⟩
  rw [adjust_weights_eq]
  by_cases hpc : predicted = correct
  · rw [if_pos hpc, hpc, reinforce_weights, hcorr]
  · rw [if_neg hpc]
    rcases hpred with h | h
    · exact absurd h hpc
    · rw [penalize_weights, h, reinforce_weights, hcorr]

/-- Witness for C10 amended: an event with the unknown class xyz on both
sides leaves the startup weights unchanged while appending the event and
incrementing the counter. -/
theorem C10_witness :
    (adjust_weights_from_feedback defaultLearningParams startupEngineState
        "xyz" "xyz" [] (1/2)).weights = startupEngineState.weights ∧
    (adjust_weights_from_feedback defaultLearningParams startupEngineState
        "xyz" "xyz" [] (1/2)).feedback_count = 1 :=
  ⟨(C10_amended_unknown_class_is_weight_noop defaultLearningParams
      startupEngineState "xyz" "xyz" [] (1/2) (by decide) (Or.inl rfl)).1,
   (C10_amended_unknown_class_is_weight_noop defaultLearningParams
      startupEngineState "xyz" "xyz" [] (1/2) (by decide) (Or.inl rfl)).2.2⟩

/-- Claim C7: In process_feedback with the CI4 integration enabled: an
unresolvable classification id returns the error status with the learning
state unchanged and no push attempted; when the id resolves, the outcome
is independent of whether storing the raw correction succeeded, the
external weight push is attempted exactly when the updated feedback_count
is a multiple of weight_update_interval, a failed push yields the success
status with weights_updated false, and the success result carries
weights_updated, feedback_count, current_accuracy (from get_statistics)
and weights_version of the updated engine state. -/
theorem C7_process_feedback_error_handling (p : LearningParams)
    (world : CI4World) (s : EngineState) (corr : String)
    (hen : world.enabled = true) :
    (world.classification = none →
       process_feedback p world s corr = (.errorNotFound, s, false)) ∧
    (∀ b, process_feedback p { world with storeAck := b } s corr =
       process_feedback p world s corr) ∧
    (∀ orig, world.classification = some orig →
       process_feedback p world s corr =
         (ProcessResult.success
            (decide ((adjust_weights_from_feedback p s orig.predictedClass corr
                orig.scores orig.confidence).feedback_count %
                  p.weight_update_interval = 0) && world.updateAck)
            (adjust_weights_from_feedback p s orig.predictedClass corr
              orig.scores orig.confidence).feedback_count
            (statisticsAccuracy (adjust_weights_from_feedback p s
              orig.predictedClass corr orig.scores orig.confidence))
            (adjust_weights_from_feedback p s orig.predictedClass corr
              orig.scores orig.confidence).weights_version,
          adjust_weights_from_feedback p s orig.predictedClass corr
            orig.scores orig.confidence,
          decide ((adjust_weights_from_feedback p s orig.predictedClass corr
            orig.scores orig.confidence).feedback_count %
              p.weight_update_interval = 0))) := by
  refine ⟨?_, ?_, ?_⟩
  · intro hnone
    simp [process_feedback, hen, hnone]
  · intro b
    simp [process_feedback]
  · intro orig hsome
    by_cases hmod : (adjust_weights_from_feedback p s orig.predictedClass corr
        orig.scores orig.confidence).feedback_count % p.weight_update_interval = 0 <;>
      simp [process_feedback, hen, hsome, hmod]

/-- Witness for C7: with a resolvable classification, a failing weight
push at a sync boundary (weight_update_interval 1) yields the success
status with weights_updated false, and the state advances by one feedback
event. -/
theorem C7_witness :
    (process_feedback fastParams worldPushFails startupEngineState
        "document").1 =
      ProcessResult.success false 1
        (statisticsAccuracy (adjust_weights_from_feedback fastParams
          startupEngineState "photo" "document" [("PHOTO", 2)] (1/2))) 2 := by
  have h := (C7_process_feedback_error_handling fastParams worldPushFails
    startupEngineState "document" (by decide)).2.2 ⟨"photo", [("PHOTO", 2)], 1/2⟩ rfl
  rw [h]
  simp [adjust_count_eq, adjust_version_eq, fastParams, defaultLearningParams,
    startupEngineState, worldPushFails, worldOk]

/-- Claim C8, code bug: the claim says update_config validates the fully
merged result, rejects an invalid update with no partial application, and
with persist false merges the update into the runtime-overrides layer
only, never writing the file — which is what the post-lock body of
update_config (config_manager.py lines 80-107) and its docstring promise.
The executed code never gets there: after acquiring the store lock at
line 79 it awaits self.get_config() at line 81, which awaits the same
non-reentrant asyncio.Lock, so every call blocks forever — for every
validity predicate, store state, update and persistence flag it never
surfaces a validation error and never produces a post-state, so in
particular the runtime-overrides merge the claim describes never
happens. -/
theorem C8_update_config_deadlocks_before_validation (valid : JObj → Bool)
    (defaults : JObj) (st : StoreState) (updates : JObj) (persist : Bool) :
    update_config_exec .free valid defaults st updates persist = none ∧
    (∀ e, update_config_exec .free valid defaults st updates persist ≠
      some (.error e)) ∧
    (∀ st' merged, update_config_exec .free valid defaults st updates persist ≠
      some (.ok (st', merged))) := by
  refine ⟨rfl, ?_, ?_⟩
  · intro e h
    exact Option.noConfusion h
  · intro st' merged h
    exact Option.noConfusion h

/-- Claim C9: Reading the persisted layer never fails: whatever layer
load_from_file produces is schema-valid; a malformed or schema-invalid
primary file falls back to the corruption recovery over the backup; when
the backup also fails, the load yields none and get_config merges the
hardcoded defaults with only the runtime overrides; and with schema-valid
defaults the effective persisted layer is always schema-valid. -/
theorem C9_corrupt_config_recovery (valid : JObj → Bool)
    (primary backup : FileContent) (defaults : JObj) :
    (∀ j, load_from_file valid primary backup = some j → valid j = true) ∧
    ((primary = .malformed ∨ ∃ j, primary = .parsed j ∧ valid j = false) →
       load_from_file valid primary backup = recover_from_corruption valid backup) ∧
    (load_from_file valid primary backup = none →
       ∀ runtime,
         get_config_merged defaults ⟨load_from_file valid primary backup, runtime⟩ =
           deep_merge defaults runtime) ∧
    (valid defaults = true →
       valid ((load_from_file valid primary backup).getD defaults) = true) := by
  refine ⟨?_, ?_, ?_, ?_⟩
  · intro j hj
    cases primary with
    | absent => simp [load_from_file] at hj
    | malformed =>
      simp only [load_from_file, recover_from_corruption] at hj
      cases backup with
      | parsed b =>
        by_cases hb : valid b = true
        · simp [hb] at hj
          simp [← hj, hb]
        · simp [Bool.not_eq_true] at hb
          simp [hb] at hj
      | absent => simp at hj
      | malformed => simp at hj
    | parsed a =>
      by_cases ha : valid a = true
      · simp [load_from_file, ha] at hj
        simp [← hj, ha]
      · simp [Bool.not_eq_true] at ha
        simp only [load_from_file, ha, recover_from_corruption, Bool.false_eq_true,
          if_false] at hj
        cases backup with
        | parsed b =>
          by_cases hb : valid b = true
          · simp [hb] at hj
            simp [← hj, hb]
          · simp [Bool.not_eq_true] at hb
            simp [hb] at hj
        | absent => simp at hj
        | malformed => simp at hj
  · rintro (h | ⟨j, hj, hv⟩)
    · subst h
      rfl
    · subst hj
      simp [load_from_file, hv]
  · intro hnone runtime
    simp [get_config_merged, hnone, deep_merge_nil]
  · intro hdef
    cases hload : load_from_file valid primary backup with
    | none => simpa using hdef
    | some j =>
      have := hload
      simp only [Option.getD]
      cases primary with
      | absent => simp [load_from_file] at hload
      | malformed =>
        cases backup with
        | parsed b =>
          by_cases hb : valid b = true
          · simp [load_from_file, recover_from_corruption, hb] at hload
            simp [← hload, hb]
          · simp [Bool.not_eq_true] at hb
            simp [load_from_file, recover_from_corruption, hb] at hload
        | absent => simp [load_from_file, recover_from_corruption] at hload
        | malformed => simp [load_from_file, recover_from_corruption] at hload
      | parsed a =>
        by_cases ha : valid a = true
        · simp [load_from_file, ha] at hload
          simp [← hload, ha]
        · simp [Bool.not_eq_true] at ha
          simp only [load_from_file, ha, recover_from_corruption,
            Bool.false_eq_true, if_false] at hload
          cases backup with
          | parsed b =>
            by_cases hb : valid b = true
            · simp [hb] at hload
              simp [← hload, hb]
            · simp [Bool.not_eq_true] at hb
              simp [hb] at hload
          | absent => simp at hload
          | malformed => simp at hload

/-- Witness for C9: with a malformed primary file and a backup whose data
validates, the load returns the backup data, which is schema-valid. -/
theorem C9_witness :
    load_from_file (fun _ => true) .malformed (.parsed [("version", JVal.str "1.0.0")]) =
      some [("version", JVal.str "1.0.0")] ∧
    (fun (_ : JObj) => true) [("version", JVal.str "1.0.0")] = true :=
  ⟨(C9_corrupt_config_recovery (fun _ => true) .malformed
      (.parsed [("version", JVal.str "1.0.0")]) []).2.1 (Or.inl rfl),
   (C9_corrupt_config_recovery (fun _ => true) .malformed
      (.parsed [("version", JVal.str "1.0.0")]) []).1
     [("version", JVal.str "1.0.0")] rfl⟩

/-- Claim C2 counterexample: At stateC2, the 15th feedback event triggers a
recalibration pass (interval 15) with 15 history entries.  The document
class has 10 ground-truth samples, 25th percentile 1.8 against current
threshold 2.0: the relative shift is exactly 10%, yet the threshold stays
at 2.0 (the code requires a strictly greater than 10% shift, the claim
says at least 10% applies the update).  The typeplate class has 5 samples
with 25th percentile 1.876 and a large shift: the stored threshold is the
rounded 1.88, not the percentile 1.876 the claim prescribes. -/
theorem C2_counterexample :
    stepC2.thresholds.document = 2 ∧
    percentile25 (classScores historyC2 .document) = 9/5 ∧
    |(9:ℚ)/5 - 2| / max 2 (1/10) = 1/10 ∧
    ((9:ℚ)/5 ≠ 2) ∧
    stepC2.thresholds.typeplate = 47/25 ∧
    percentile25 (classScores historyC2 .typeplate) = 469/250 ∧
    ((47:ℚ)/25 ≠ 469/250) := by
  have hdoc : classScores historyC2 .document =
      [9/5, 9/5, 9/5, 9/5, 9/5, 9/5, 9/5, 9/5, 9/5, 9/5] := by
    simp [historyC2, stateC2, classScores, className, classKeyName, lookupScore]
  have htp : classScores historyC2 .typeplate =
      [469/250, 469/250, 469/250, 469/250, 469/250] := by
    simp [historyC2, stateC2, classScores, className, classKeyName, lookupScore]
  have hpdoc' : percentile25 [(9:ℚ)/5, 9/5, 9/5, 9/5, 9/5, 9/5, 9/5, 9/5, 9/5, 9/5] =
      9/5 := by
    norm_num [percentile25, List.insertionSort, List.orderedInsert]
  have hptp' : percentile25 [(469:ℚ)/250, 469/250, 469/250, 469/250, 469/250] =
      469/250 := by
    norm_num [percentile25, List.insertionSort, List.orderedInsert]
  have habsdoc : |(9:ℚ)/5 - 2| = 1/5 := by
    rw [abs_sub_comm, abs_of_nonneg (by norm_num)]
    norm_num
  have habstp : |(469:ℚ)/250 - 3| = 281/250 := by
    rw [abs_sub_comm, abs_of_nonneg (by norm_num)]
    norm_num
  have hfloor : ⌊(469:ℚ)/250 * 100⌋ = 187 := by
    rw [Int.floor_eq_iff]
    norm_num
  have hround : round2 (469/250) = 47/25 := by
    rw [round2, roundHalfEven]
    rw [hfloor]
    norm_num
  have hth : stepC2.thresholds =
      recalculate_thresholds paramsC2 historyC2 stateC2.thresholds := by
    simp only [stepC2]
    rw [adjust_thresholds_eq, if_pos (by norm_num [stateC2, paramsC2,
      defaultLearningParams])]
    rfl
  have hlen : ¬ historyC2.length < paramsC2.min_feedback_for_update := by
    simp [historyC2, stateC2, paramsC2, defaultLearningParams]
  refine ⟨?_, by rw [hdoc]; exact hpdoc', by rw [habsdoc]; norm_num, by norm_num,
    ?_, by rw [htp]; exact hptp', by norm_num⟩
  · rw [hth, recalculate_thresholds, if_neg hlen]
    simp only [recalcClass, hdoc, hpdoc', stateC2]
    rw [if_pos (by norm_num), if_neg (by rw [habsdoc]; norm_num)]
  · rw [hth, recalculate_thresholds, if_neg hlen]
    simp only [recalcClass, htp, hptp', stateC2]
    rw [if_pos (by norm_num), if_pos (by rw [habstp]; norm_num), hround]

/-- Claim C2 amended: A recalibration pass runs exactly when the incremented
feedback_count is a multiple of threshold_recalc_interval; outside a pass
thresholds and weights_version are untouched.  Within a pass
weights_version increments by exactly 1 whether or not any threshold
changes; a class with fewer than 5 ground-truth samples (or a history
shorter than min_feedback_for_update) keeps its threshold; and a class
with enough samples gets the 25th percentile of its ground-truth scores,
rounded to two decimals, exactly when the shift relative to
max(current threshold, 0.1) strictly exceeds 10%. -/
theorem C2_amended_threshold_recalibration (p : LearningParams)
    (s : EngineState) (predicted correct : String)
    (scores : List (String × ℚ)) (conf : ℚ)
    (_hpos : 0 < p.threshold_recalc_interval) :
    (¬ (s.feedback_count + 1) % p.threshold_recalc_interval = 0 →
       (adjust_weights_from_feedback p s predicted correct scores conf).thresholds =
         s.thresholds ∧
       (adjust_weights_from_feedback p s predicted correct scores conf).weights_version =
         s.weights_version) ∧
    ((s.feedback_count + 1) % p.threshold_recalc_interval = 0 →
       (adjust_weights_from_feedback p s predicted correct scores conf).weights_version =
         s.weights_version + 1 ∧
       ∀ c : ClassName,
         ((classScores (s.feedback_history ++ [FeedbackEntry.mk predicted correct scores conf]) c).length < 5 ∨
            (s.feedback_history ++ [FeedbackEntry.mk predicted correct scores conf]).length <
              p.min_feedback_for_update →
            (adjust_weights_from_feedback p s predicted correct scores conf).thresholds.get c =
              s.thresholds.get c) ∧
         (5 ≤ (classScores (s.feedback_history ++ [FeedbackEntry.mk predicted correct scores conf]) c).length →
            p.min_feedback_for_update ≤
              (s.feedback_history ++ [FeedbackEntry.mk predicted correct scores conf]).length →
            (adjust_weights_from_feedback p s predicted correct scores conf).thresholds.get c =
              (if |percentile25 (classScores (s.feedback_history ++
                      [FeedbackEntry.mk predicted correct scores conf]) c) - s.thresholds.get c| /
                    max (s.thresholds.get c) (1/10) > 1/10 then
                round2 (percentile25 (classScores (s.feedback_history ++
                  [FeedbackEntry.mk predicted correct scores conf]) c))
              else s.thresholds.get c))) := by
  have hth := adjust_thresholds_eq p s predicted correct scores conf
  have hv := adjust_version_eq p s predicted correct scores conf
  constructor
  · intro hmod
    rw [hth, if_neg hmod, hv, if_neg hmod]
    exact ⟨rfl, rfl⟩
  · intro hmod
    refine ⟨by rw [hv, if_pos hmod], ?_⟩
    intro c
    rw [hth, if_pos hmod]
    by_cases hlen :
        (s.feedback_history ++ [FeedbackEntry.mk predicted correct scores conf]).length <
          p.min_feedback_for_update
    · rw [recalculate_thresholds, if_pos hlen]
      exact ⟨fun _ => rfl, fun _ hge => absurd hlen (by omega)⟩
    · rw [recalculate_thresholds, if_neg hlen]
      constructor
      · rintro (h5 | hmin)
        · cases c <;>
            simp only [Thresholds.get, recalcClass] <;>
            rw [if_neg (by omega)]
        · exact absurd hmin hlen
      · intro h5 _
        cases c <;>
          simp only [Thresholds.get, recalcClass] <;>
          rw [if_pos h5]

/-- Witness for C2 amended: with recalculation interval 1 and minimum 1,
the first feedback event from the startup state triggers a pass;
weights_version becomes 2 and the document class, with no ground-truth
samples, keeps its threshold 1.5. -/
theorem C2_witness :
    (adjust_weights_from_feedback fastParams startupEngineState "photo" "photo"
        [("PHOTO", (2:ℚ))] (1/2)).weights_version = 2 ∧
    (adjust_weights_from_feedback fastParams startupEngineState "photo" "photo"
        [("PHOTO", (2:ℚ))] (1/2)).thresholds.get .document = 3/2 := by
  have h := (C2_amended_threshold_recalibration fastParams startupEngineState
    "photo" "photo" [("PHOTO", (2:ℚ))] (1/2) (by decide)).2 (by decide)
  constructor
  · rw [h.1]
    rfl
  · rw [(h.2 ClassName.document).1 (Or.inl (by
      simp [startupEngineState, classScores, className, classKeyName, lookupScore]))]
    rfl

/-- Claim C3, code bug: reset_to_defaults builds its snapshot from
_get_defaults, which reads the live ClassificationConfig.WEIGHTS that the
learning engine mutates in place.  After a single correct-photo feedback
event, reset_to_defaults returns and persists a snapshot whose PHOTO
low_text_bonus leaf is 2.1, not the hardcoded default 2.0 — the returned
configuration depends on the prior weight mutation, contradicting the
claim (and the docstring of the code, which promises hardcoded
defaults). -/
theorem C3_reset_returns_mutated_weights :
    (reset_to_defaults managerAfterPhotoReinforce).2.WEIGHTS ≠ hardcodedWeights ∧
    lookupWeight "low_text_bonus"
        (reset_to_defaults managerAfterPhotoReinforce).2.WEIGHTS.PHOTO =
      some (ConfigValue.num (21/10)) ∧
    (reset_to_defaults managerAfterPhotoReinforce).1.file =
      some (reset_to_defaults managerAfterPhotoReinforce).2 ∧
    (reset_to_defaults managerAfterPhotoReinforce).1.runtime = [] := by
  have hlook : lookupWeight "low_text_bonus"
      (reset_to_defaults managerAfterPhotoReinforce).2.WEIGHTS.PHOTO =
        some (ConfigValue.num (21/10)) := by
    simp [reset_to_defaults, get_defaults, managerAfterPhotoReinforce,
      engineAfterPhotoReinforce, adjust_weights_eq, reinforce_weights,
      class_to_key, startupEngineState, hardcodedWeights, Weights.set,
      Weights.get, reinforceGroup, lookupWeight, defaultLearningParams]
    norm_num
  refine ⟨?_, hlook, rfl, rfl⟩
  intro h
  rw [show (reset_to_defaults managerAfterPhotoReinforce).2.WEIGHTS =
    (reset_to_defaults managerAfterPhotoReinforce).2.WEIGHTS from rfl, h] at hlook
  simp [hardcodedWeights, lookupWeight] at hlook
  norm_num at hlook

end OCRC
